import Mathlib

/-!
Shallow embedding of the AgroIrriga Pro backend coordination engine
(`backend/app/main.py`, data model `backend/app/models.py`).

Real-valued sensor readings are modelled as `Rat`; the code under study only
compares them (never computes with them), so rational comparisons mirror the
source faithfully.  Database writes mirror the list of records the code adds
and commits; outbound MQTT publishes mirror the payload dictionaries built in
the source.  The predictive model is the black box the source treats it as: a
function from a feature vector to a label, plus a class-probability vector.
-/

namespace AgroIrriga

/-- Stored weather row as built by `save_weather_data` from an inbound payload
dictionary (`models.WeatherReading` columns used there; every sensor column is
nullable in the schema). -/
structure StoredWeather where
  temperature : Option Rat
  humidity : Option Rat
  pressure : Option Rat
  wind_speed : Option Rat
  rain_1h : Option Rat
  solar_radiation : Option Rat
  device_id : String
deriving Repr, DecidableEq

/-- Inbound weather payload dictionary: `data.get(key)` yields `none` for a
missing key, and `data.get("device_id", "unknown")` has an explicit default. -/
structure WeatherPayload where
  temperature : Option Rat := none
  humidity : Option Rat := none
  pressure : Option Rat := none
  wind_speed : Option Rat := none
  rain_1h : Option Rat := none
  solar_radiation : Option Rat := none
  device_id : Option String := none
deriving Repr, DecidableEq

/-- Function `save_weather_data`: builds one `WeatherReading` row from the payload and
commits it.  The returned list is the set of rows added and committed. -/
def save_weather_data (data : WeatherPayload) : List StoredWeather :=
  [{ temperature := data.temperature
     humidity := data.humidity
     pressure := data.pressure
     wind_speed := data.wind_speed
     rain_1h := data.rain_1h
     solar_radiation := data.solar_radiation
     device_id := data.device_id.getD "unknown" }]

/-- Weather reading as consumed by the decision logic.  The three fields the
decision reads (`temperature`, `humidity`, `rain_1h`) are compared as numbers
by the source, so they are modelled as present values. -/
structure WeatherReading where
  temperature : Rat
  humidity : Rat
  rain_1h : Rat
deriving Repr, DecidableEq

/-- Row type `models.IrrigationEvent`, the fields set by the dispatch paths. -/
structure IrrigationEvent where
  valve_number : Option Int
  zone_id : Int
  action : String
  duration_minutes : Option Nat
  triggered_by : String
  confidence : Option Rat
deriving Repr, DecidableEq

/-- The predictive model, as the source uses it: `model.predict(features)[0]`
is the label and `model.predict_proba(features)[0]` the class-probability
vector. -/
structure Predictor where
  predict : List Rat → Int
  predict_proba : List Rat → List Rat

/-- The transient decision record returned by `make_irrigation_decision`. -/
structure Decision where
  should_irrigate : Bool
  confidence : Rat
  reason : String
  valves_to_open : List Nat
  duration_minutes : Nat
deriving Repr, DecidableEq

/-- Feature vector of the ML path: `weather.temperature if weather else 25`,
humidity default 60, `rain_1h` default 0, in that fixed order. -/
def mlFeatures (weather : Option WeatherReading) : List Rat :=
  [ (match weather with | some w => w.temperature | none => 25)
  , (match weather with | some w => w.humidity | none => 60)
  , (match weather with | some w => w.rain_1h | none => 0) ]

/-- Maximum (numpy `.max()`) of a probability vector (defined on nonempty vectors, which
is the only case the source exercises). -/
def probaMax : List Rat → Rat
  | [] => 0
  | p :: ps => ps.foldl max p

set_option linter.unusedVariables false in
/-- Function `make_irrigation_decision(weather, last_irrigation, model)` from
`main.py`.  `last_irrigation` is accepted and ignored, exactly as in the
source. -/
def make_irrigation_decision (weather : Option WeatherReading)
    (last_irrigation : Option IrrigationEvent) (model : Option Predictor) :
    Decision :=
  match model with
  | some m =>
      let features := mlFeatures weather
      let prediction := m.predict features
      let confidence := probaMax (m.predict_proba features)
      { should_irrigate := prediction == 1
        confidence := confidence
        reason := "ml_prediction"
        valves_to_open := [1, 2, 3]
        duration_minutes := 30 }
  | none =>
      let sr : Bool × String :=
        match weather with
        | none => (false, "")
        | some w =>
            if w.rain_1h > 5 then (false, "Chuva recente detectada")
            else if w.humidity > 70 then (false, "Umidade ambiente alta")
            else if w.temperature > 30 ∧ w.humidity < 40 then
              (true, "Condições de estresse hídrico")
            else (false, "")
      { should_irrigate := sr.1
        confidence := 0.7
        reason := sr.2
        valves_to_open := if sr.1 then [1, 2] else []
        duration_minutes := 25 }

/-- Outbound MQTT command payload, mirroring the dictionaries built in
`main.py` and published to `agroirriga/agroirriga_fazenda_01/command`. -/
structure CommandMsg where
  action : String
  valve : Option Int := none
  duration : Option Nat := none
  reason : Option String := none
  source : Option String := none
deriving Repr, DecidableEq

/-- Schema `ValveCommand` as used by `control_valve` (the schema module is
not part of the sources; fields are those the source reads: `state` and
`duration_minutes`). -/
structure ValveCommand where
  state : Bool
  duration_minutes : Nat
deriving Repr, DecidableEq

/-- HTTP-level response body of `control_valve` on success. -/
structure ControlResponse where
  success : Bool
  valve : Int
  state : String
  message : String
deriving Repr, DecidableEq

/-- The observable outcome of one dispatcher call: MQTT messages published,
irrigation events added and committed, and the response (an
`HTTPException` detail string on the error side). -/
structure DispatchOutcome where
  published : List CommandMsg
  events : List IrrigationEvent
  response : Except String ControlResponse
deriving Repr

/-- Endpoint `control_valve(valve_number, command)`: range check first
(`HTTPException 400` before any publish or database write), then one MQTT
publish and one `IrrigationEvent` with `triggered_by="manual"`. -/
def control_valve (valve_number : Int) (command : ValveCommand) :
    DispatchOutcome :=
  if valve_number < 1 ∨ valve_number > 10 then
    { published := []
      events := []
      response := .error "Válvula deve ser 1-10" }
  else
    { published := [{ action := if command.state then "valve_on" else "valve_off"
                      valve := some valve_number
                      duration := some (if command.state then command.duration_minutes else 0)
                      source := some "web_api" }]
      events := [{ valve_number := some valve_number
                   zone_id := 1
                   action := if command.state then "ON" else "OFF"
                   duration_minutes := if command.state then some command.duration_minutes else none
                   triggered_by := "manual"
                   confidence := none }]
      response := .ok { success := true
                        valve := valve_number
                        state := if command.state then "ON" else "OFF"
                        message := if command.state then "ligada" else "desligada" } }

/-- Endpoint `all_valves_off()`: publishes one `valve_all_off` command and writes no
`IrrigationEvent`. -/
def all_valves_off : DispatchOutcome :=
  { published := [{ action := "valve_all_off" }]
    events := []
    response := .ok { success := true
                      valve := 0
                      state := "OFF"
                      message := "Comando enviado: desligar todas" } }

/-- Endpoint `smart_irrigation(zone_id)`: runs `make_irrigation_decision` on the
latest weather reading and the zone's last irrigation event; when the
decision says irrigate it publishes one `valve_on` per valve in
`valves_to_open` and commits one `SMART_ON` event with
`triggered_by="ml_model"`. -/
def smart_irrigation (zone_id : Int) (weather : Option WeatherReading)
    (last_irrigation : Option IrrigationEvent) (model : Option Predictor) :
    DispatchOutcome × Decision :=
  let decision := make_irrigation_decision weather last_irrigation model
  if decision.should_irrigate then
    ({ published := decision.valves_to_open.map (fun v =>
         { action := "valve_on"
           valve := some (v : Int)
           duration := some decision.duration_minutes
           reason := some "ml_recommendation" })
       events := [{ valve_number := none
                    zone_id := zone_id
                    action := "SMART_ON"
                    duration_minutes := some decision.duration_minutes
                    triggered_by := "ml_model"
                    confidence := some decision.confidence }]
       response := .ok { success := true, valve := 0, state := "", message := "" } },
     decision)
  else
    ({ published := []
       events := []
       response := .ok { success := true, valve := 0, state := "", message := "" } },
     decision)

/-- Python substring test `pat in s`, as containment of the pattern's
character list in the topic's character list. -/
def strContains (s pat : String) : Bool := decide (pat.data <:+: s.data)

/-- Observable effects of one `on_mqtt_message` callback invocation. -/
inductive IngestEffect where
  | savedValveStatus
  | savedWeather
  | handledAlert
  | notified (topic : String)
  | loggedError
deriving Repr, DecidableEq

/-- Callback `on_mqtt_message`: the whole body — decode, topic routing, persistence
and the `notify_clients` task — runs inside one `try`; any exception
(`parseOk = false` for a decode failure, `persistOk = false` for a raising
database write) jumps to the `except` handler which only logs.  The
notification is scheduled only when control reaches the end of the `try`
body. -/
def on_mqtt_message (topic : String) (parseOk : Bool) (persistOk : Bool) :
    List IngestEffect :=
  if !parseOk then [.loggedError]
  else
    let processed : Option (List IngestEffect) :=
      if strContains topic "status" then
        if persistOk then some [.savedValveStatus] else none
      else if strContains topic "weather" then
        if persistOk then some [.savedWeather] else none
      else if strContains topic "alerts" then some [.handledAlert]
      else some []
    match processed with
    | none => [.loggedError]
    | some effects => effects ++ [.notified topic]

/-- Result of one `notify_clients` broadcast over the `connected_clients`
list: the clients whose `send_json` was attempted (all of them, in order),
those to which delivery succeeded, and the surviving observer list after the
removal loop.  `fails c = true` models `send_json` raising for client `c`. -/
structure NotifyResult where
  attempted : List Nat
  delivered : List Nat
  remaining : List Nat
deriving Repr, DecidableEq

/-- Broadcast `notify_clients(message)`: iterates over all connected clients, collects
the ones whose delivery raised into `disconnected`, then removes each of
those from the list (guarded by an `in` check, as in the source). -/
def notify_clients (clients : List Nat) (fails : Nat → Bool) : NotifyResult :=
  let disconnected := clients.filter fails
  { attempted := clients
    delivered := clients.filter (fun c => !fails c)
    remaining := disconnected.foldl
      (fun cs c => if cs.contains c then cs.erase c else cs) clients }

/-- One iteration of a periodic background task: the sleep that precedes it,
the `smart_irrigation` zone evaluations it performs, and the lines it
prints. -/
structure PeriodicTick where
  sleep_seconds : Nat
  smart_calls : List Int
  log_lines : List String
deriving Repr, DecidableEq

/-- One iteration of `ml_irrigation_advisor`: sleeps 21600 s (6 h) and then
only prints an analysis message — it dispatches nothing. -/
def ml_irrigation_advisor_tick : PeriodicTick :=
  { sleep_seconds := 21600
    smart_calls := []
    log_lines := ["ML Advisor: Analisando condições para irrigação..."] }

/-- Concrete reading with recent rain (rule 1 fires). -/
def rainyReading : WeatherReading :=
  { temperature := 20, humidity := 50, rain_1h := 6 }

/-- Concrete reading with high humidity (rule 2 fires). -/
def humidReading : WeatherReading :=
  { temperature := 20, humidity := 80, rain_1h := 0 }

/-- Concrete water-stress reading (rule 3 fires). -/
def stressReading : WeatherReading :=
  { temperature := 32, humidity := 35, rain_1h := 0 }

/-- Concrete predictor that always answers label 1 with probabilities
[0.1, 0.9]. -/
def constPredictor : Predictor :=
  { predict := fun _ => 1
    predict_proba := fun _ => [0.1, 0.9] }

/-- Concrete inbound weather payload with out-of-range humidity and negative
rain. -/
def badWeatherPayload : WeatherPayload :=
  { temperature := some 22, humidity := some 150, rain_1h := some (-3) }

/-- C1 counterexample: on a reading with `rain_1h = 6 > 5` the decision does
refuse to irrigate, but its reason is the source string "Chuva recente
detectada", not "recent rainfall detected"; the other two reason strings of
the claim likewise do not occur. -/
theorem heuristic_reason_strings_cex :
    (make_irrigation_decision (some rainyReading) none none).should_irrigate = false ∧
    (make_irrigation_decision (some rainyReading) none none).reason
      = "Chuva recente detectada" ∧
    (make_irrigation_decision (some rainyReading) none none).reason
      ≠ "recent rainfall detected" ∧
    (make_irrigation_decision (some humidReading) none none).reason
      ≠ "ambient humidity high" ∧
    (make_irrigation_decision (some stressReading) none none).reason
      ≠ "water-stress conditions" := by
  decide

/-- C1 (amended): with no model configured, the heuristic rules are evaluated
in precedence order with first match winning — rain above 5 mm refuses with
reason "Chuva recente detectada", then humidity above 70 refuses with reason
"Umidade ambiente alta", then temperature above 30 with humidity below 40
irrigates with reason "Condições de estresse hídrico", confidence 0.7 and
duration 25 minutes, otherwise the decision is negative with empty reason;
with no weather at all no rule fires and the decision is negative with empty
reason. -/
theorem heuristic_rule_precedence (w : WeatherReading)
    (l : Option IrrigationEvent) :
    make_irrigation_decision (some w) l none =
      (if w.rain_1h > 5 then
        { should_irrigate := false, confidence := 0.7
          reason := "Chuva recente detectada"
          valves_to_open := [], duration_minutes := 25 }
      else if w.humidity > 70 then
        { should_irrigate := false, confidence := 0.7
          reason := "Umidade ambiente alta"
          valves_to_open := [], duration_minutes := 25 }
      else if w.temperature > 30 ∧ w.humidity < 40 then
        { should_irrigate := true, confidence := 0.7
          reason := "Condições de estresse hídrico"
          valves_to_open := [1, 2], duration_minutes := 25 }
      else
        { should_irrigate := false, confidence := 0.7
          reason := ""
          valves_to_open := [], duration_minutes := 25 }) ∧
    make_irrigation_decision none l none =
      { should_irrigate := false, confidence := 0.7, reason := ""
        valves_to_open := [], duration_minutes := 25 } := by
  constructor
  · simp only [make_irrigation_decision]
    split_ifs <;> simp_all
  · rfl

/-- C10: on the heuristic path the decision always carries confidence 0.7 and
duration 25 minutes, and opens valves [1, 2] exactly when it recommends
irrigating. -/
theorem heuristic_constants (w : Option WeatherReading)
    (l : Option IrrigationEvent) :
    (make_irrigation_decision w l none).confidence = 0.7 ∧
    (make_irrigation_decision w l none).duration_minutes = 25 ∧
    (make_irrigation_decision w l none).valves_to_open =
      (if (make_irrigation_decision w l none).should_irrigate
       then [1, 2] else []) := by
  cases w <;> exact ⟨rfl, rfl, rfl⟩

/-- C9: the decision function is deterministic — identical weather,
last-irrigation and model arguments yield Decisions equal in every field. -/
theorem make_irrigation_decision_deterministic
    (w₁ w₂ : Option WeatherReading) (l₁ l₂ : Option IrrigationEvent)
    (m₁ m₂ : Option Predictor)
    (hw : w₁ = w₂) (hl : l₁ = l₂) (hm : m₁ = m₂) :
    (make_irrigation_decision w₁ l₁ m₁).should_irrigate
      = (make_irrigation_decision w₂ l₂ m₂).should_irrigate ∧
    (make_irrigation_decision w₁ l₁ m₁).confidence
      = (make_irrigation_decision w₂ l₂ m₂).confidence ∧
    (make_irrigation_decision w₁ l₁ m₁).reason
      = (make_irrigation_decision w₂ l₂ m₂).reason ∧
    (make_irrigation_decision w₁ l₁ m₁).valves_to_open
      = (make_irrigation_decision w₂ l₂ m₂).valves_to_open ∧
    (make_irrigation_decision w₁ l₁ m₁).duration_minutes
      = (make_irrigation_decision w₂ l₂ m₂).duration_minutes := by
  subst hw; subst hl; subst hm
  exact ⟨rfl, rfl, rfl, rfl, rfl⟩

/-- C9 witness: determinism instantiated at the concrete water-stress
reading. -/
theorem make_irrigation_decision_deterministic_witness :
    (make_irrigation_decision (some stressReading) none none).should_irrigate
      = (make_irrigation_decision (some stressReading) none none).should_irrigate ∧
    (make_irrigation_decision (some stressReading) none none).confidence
      = (make_irrigation_decision (some stressReading) none none).confidence ∧
    (make_irrigation_decision (some stressReading) none none).reason
      = (make_irrigation_decision (some stressReading) none none).reason ∧
    (make_irrigation_decision (some stressReading) none none).valves_to_open
      = (make_irrigation_decision (some stressReading) none none).valves_to_open ∧
    (make_irrigation_decision (some stressReading) none none).duration_minutes
      = (make_irrigation_decision (some stressReading) none none).duration_minutes :=
  make_irrigation_decision_deterministic (some stressReading) (some stressReading)
    none none none none rfl rfl rfl

/-- C4 counterexample: `make_irrigation_decision` takes no zone argument, and
on the ML path it returns the fixed valve list [1, 2, 3] and duration 30 for
every input — with and without weather, rainy or stressed — so the valve set
is hardcoded, not resolved from any zone's valve membership. -/
theorem ml_valves_hardcoded_cex :
    (make_irrigation_decision (some stressReading) none (some constPredictor)).valves_to_open
      = [1, 2, 3] ∧
    (make_irrigation_decision (some rainyReading) none (some constPredictor)).valves_to_open
      = [1, 2, 3] ∧
    (make_irrigation_decision none none (some constPredictor)).valves_to_open
      = [1, 2, 3] ∧
    (make_irrigation_decision none none (some constPredictor)).duration_minutes
      = 30 := by
  exact ⟨rfl, rfl, rfl, rfl⟩

/-- C4 (amended): with a model configured, the decision uses the fixed-order
feature vector (defaults temperature 25, humidity 60, rain 0 when weather is
absent), recommends irrigation exactly when the predicted label is 1 with
reason "ml_prediction" and confidence equal to the maximum class probability,
and always returns the hardcoded valve list [1, 2, 3] and duration 30
minutes — no zone information is consulted. -/
theorem ml_path_characterization (w : Option WeatherReading)
    (l : Option IrrigationEvent) (m : Predictor) :
    make_irrigation_decision w l (some m) =
      { should_irrigate := m.predict (mlFeatures w) == 1
        confidence := probaMax (m.predict_proba (mlFeatures w))
        reason := "ml_prediction"
        valves_to_open := [1, 2, 3]
        duration_minutes := 30 } ∧
    mlFeatures w = [ w.elim 25 (fun r => r.temperature)
                   , w.elim 60 (fun r => r.humidity)
                   , w.elim 0 (fun r => r.rain_1h) ] := by
  refine ⟨rfl, ?_⟩
  cases w <;> rfl

/-- C5: for any valve number outside [1, 10] the manual control endpoint
rejects the request before any side effect: nothing is published, no event is
written, and the response is the 400 rejection. -/
theorem control_valve_range_check (valve_number : Int)
    (command : ValveCommand)
    (h : valve_number < 1 ∨ valve_number > 10) :
    (control_valve valve_number command).published = [] ∧
    (control_valve valve_number command).events = [] ∧
    (control_valve valve_number command).response
      = .error "Válvula deve ser 1-10" := by
  simp only [control_valve, if_pos h]
  exact ⟨trivial, trivial, trivial⟩

/-- C5 witness: the range check at the two boundary inputs 0 and 11 from the
spec's test. -/
theorem control_valve_range_check_witness :
    (control_valve 0 { state := true, duration_minutes := 10 }).published = [] ∧
    (control_valve 0 { state := true, duration_minutes := 10 }).events = [] ∧
    (control_valve 0 { state := true, duration_minutes := 10 }).response
      = .error "Válvula deve ser 1-10" ∧
    (control_valve 11 { state := true, duration_minutes := 10 }).published = [] ∧
    (control_valve 11 { state := true, duration_minutes := 10 }).events = [] :=
  ⟨(control_valve_range_check 0 _ (Or.inl (by decide))).1,
   (control_valve_range_check 0 _ (Or.inl (by decide))).2.1,
   (control_valve_range_check 0 _ (Or.inl (by decide))).2.2,
   (control_valve_range_check 11 _ (Or.inr (by decide))).1,
   (control_valve_range_check 11 _ (Or.inr (by decide))).2.1⟩

/-- C3 counterexample: `all_valves_off` does publish a state-changing
`valve_all_off` command, yet appends no IrrigationEvent at all, not exactly
one. -/
theorem all_valves_off_no_event_cex :
    all_valves_off.events = [] ∧
    all_valves_off.published = [{ action := "valve_all_off" }] := by
  exact ⟨rfl, rfl⟩

/-- C3 (amended): a valid manual command appends exactly one event with
`triggered_by="manual"`; a smart command appends exactly one event with
`triggered_by="ml_model"` when the decision irrigates and none otherwise;
`all_valves_off` appends no event. -/
theorem dispatch_event_audit (valve_number : Int) (command : ValveCommand)
    (hv : 1 ≤ valve_number ∧ valve_number ≤ 10) (zone_id : Int)
    (w : Option WeatherReading) (l : Option IrrigationEvent)
    (m : Option Predictor) :
    (control_valve valve_number command).events.map (fun e => e.triggered_by)
      = ["manual"] ∧
    ((make_irrigation_decision w l m).should_irrigate = true →
      (smart_irrigation zone_id w l m).1.events.map (fun e => e.triggered_by)
        = ["ml_model"]) ∧
    ((make_irrigation_decision w l m).should_irrigate = false →
      (smart_irrigation zone_id w l m).1.events = []) ∧
    all_valves_off.events = [] := by
  refine ⟨?_, ?_, ?_, rfl⟩
  · have hcond : ¬(valve_number < 1 ∨ valve_number > 10) := by omega
    simp only [control_valve, if_neg hcond]
    rfl
  · intro hirr
    simp only [smart_irrigation, hirr]
    rfl
  · intro hirr
    simp only [smart_irrigation, hirr]
    rfl

/-- C3 witness: event audit at valve 3 (manual) and at the water-stress
reading (heuristic smart dispatch for zone 1). -/
theorem dispatch_event_audit_witness :
    (control_valve 3 { state := true, duration_minutes := 15 }).events.map
        (fun e => e.triggered_by) = ["manual"] ∧
    (smart_irrigation 1 (some stressReading) none none).1.events.map
        (fun e => e.triggered_by) = ["ml_model"] :=
  ⟨(dispatch_event_audit 3 { state := true, duration_minutes := 15 }
      (by decide) 1 (some stressReading) none none).1,
   (dispatch_event_audit 3 { state := true, duration_minutes := 15 }
      (by decide) 1 (some stressReading) none none).2.1 (by decide)⟩

/-- C2 counterexample: a payload with humidity 150 (outside [0, 100]) and
rain −3 mm (negative) is committed unchanged by `save_weather_data` — no
rejection happens. -/
theorem save_weather_no_validation_cex :
    (save_weather_data badWeatherPayload).map (fun w => (w.humidity, w.rain_1h))
      = [(some 150, some (-3))] ∧
    (150 : Rat) > 100 ∧ (-3 : Rat) < 0 := by
  exact ⟨rfl, by decide, by decide⟩

/-- C2 (amended): `save_weather_data` performs no validation — it always
commits exactly one reading carrying the payload's humidity and rain values
verbatim, whatever they are. -/
theorem save_weather_data_unconditional (data : WeatherPayload) :
    (save_weather_data data).length = 1 ∧
    (save_weather_data data).map (fun w => w.humidity) = [data.humidity] ∧
    (save_weather_data data).map (fun w => w.rain_1h) = [data.rain_1h] := by
  exact ⟨rfl, rfl, rfl⟩

/-- C6 counterexample: a weather message that parses fine but whose database
write raises is swallowed by the surrounding handler — only the error is
logged, and no `mqtt_update` notification is pushed. -/
theorem mqtt_notify_skipped_cex :
    on_mqtt_message "agroirriga/dev1/weather" true false
      = [IngestEffect.loggedError] ∧
    IngestEffect.notified "agroirriga/dev1/weather"
      ∉ on_mqtt_message "agroirriga/dev1/weather" true false := by
  decide

/-- C6 (amended): the `mqtt_update` notification is pushed exactly when the
payload parses and, for status and weather topics, the persistence step
succeeds; a persistence failure jumps to the handler, which logs and skips
the notification. -/
theorem mqtt_notify_iff (topic : String) (parseOk persistOk : Bool) :
    IngestEffect.notified topic ∈ on_mqtt_message topic parseOk persistOk ↔
      parseOk = true ∧
      ((strContains topic "status" = true ∨ strContains topic "weather" = true) →
        persistOk = true) := by
  cases parseOk <;> cases persistOk <;>
    cases h1 : strContains topic "status" <;>
      cases h2 : strContains topic "weather" <;>
        cases h3 : strContains topic "alerts" <;>
          simp [on_mqtt_message, h1, h2, h3]

/-- C7 counterexample: one firing of the ML advisor performs zero
`smart_irrigation` zone evaluations — against the claim that each configured
zone is evaluated on each firing. -/
theorem advisor_no_zone_calls_cex :
    ml_irrigation_advisor_tick.smart_calls = [] ∧
    ml_irrigation_advisor_tick.smart_calls.length = 0 := by
  exact ⟨rfl, rfl⟩

/-- C7 (amended): the advisor task fires every 6 hours (21600-second sleep)
and on each firing only prints a single analysis line; it invokes
`smart_irrigation` for no zone. -/
theorem advisor_tick_logs_only :
    ml_irrigation_advisor_tick.sleep_seconds = 6 * 3600 ∧
    ml_irrigation_advisor_tick.smart_calls = [] ∧
    ml_irrigation_advisor_tick.log_lines.length = 1 := by
  exact ⟨rfl, rfl, rfl⟩

/-- The guarded removal step of `notify_clients` is plain list erasure: when
the client is absent, `erase` is the identity anyway. -/
theorem notify_step_eq_erase (cs : List Nat) (c : Nat) :
    (if cs.contains c then cs.erase c else cs) = cs.erase c := by
  by_cases h : c ∈ cs
  · simp [h]
  · rw [if_neg, List.erase_of_not_mem h]
    simpa using h

/-- Folding the guarded removal step over a removal list computes the list
difference. -/
theorem notify_fold_eq_diff (d cs : List Nat) :
    d.foldl (fun acc c => if acc.contains c then acc.erase c else acc) cs
      = cs.diff d := by
  induction d generalizing cs with
  | nil => rfl
  | cons a d ih =>
      rw [List.foldl_cons, notify_step_eq_erase, ih, List.diff_cons]

/-- C8: a broadcast attempts delivery to every registered observer in order;
the observers whose delivery failed — and exactly those — are removed
afterwards, so every observer whose delivery succeeded stays registered for
subsequent broadcasts. -/
theorem notify_clients_broadcast (clients : List Nat) (fails : Nat → Bool)
    (h : clients.Nodup) :
    (notify_clients clients fails).attempted = clients ∧
    (notify_clients clients fails).delivered
      = clients.filter (fun c => !fails c) ∧
    (notify_clients clients fails).remaining
      = clients.filter (fun c => !fails c) := by
  refine ⟨rfl, rfl, ?_⟩
  show (clients.filter fails).foldl
      (fun acc c => if acc.contains c then acc.erase c else acc) clients = _
  rw [notify_fold_eq_diff, h.diff_eq_filter]
  refine List.filter_congr ?_
  intro x hx
  simp [List.mem_filter, hx]

/-- C8 witness: three distinct observers with delivery to observer 2
failing — all three are attempted, observers 1 and 3 are delivered to and
remain registered, observer 2 is removed. -/
theorem notify_clients_broadcast_witness :
    (notify_clients [1, 2, 3] (fun c => c == 2)).attempted = [1, 2, 3] ∧
    (notify_clients [1, 2, 3] (fun c => c == 2)).delivered = [1, 3] ∧
    (notify_clients [1, 2, 3] (fun c => c == 2)).remaining = [1, 3] := by
  have h := notify_clients_broadcast [1, 2, 3] (fun c => c == 2) (by decide)
  exact ⟨h.1, h.2.1.trans (by decide), h.2.2.trans (by decide)⟩

end AgroIrriga
